import Mathlib

/-!
Verification of the 21cm brightness-temperature parameter-sensitivity script
(`src/21cm_analysis.py`).

The script's numeric values are IEEE doubles; we embed them as an extended
value type `EVal` over exact rationals: a finite rational, a positive or
negative infinity, or NaN, with the arithmetic operations the script uses
(addition for the mean's sum, subtraction, true division and multiplication
for the percentage-deviation expression) following IEEE special-value
semantics.  None of the verified properties depends on rounding; the literal
scenarios in the spec use exactly representable values.  Signed zero is
collapsed to the single rational zero (division of a nonzero positive value
by zero yields positive infinity, as it does for numpy's default float64
with a positive zero divisor).

The external simulation `T_b` is not part of the repository; it is modelled
as an opaque adapter parameter, following the spec's description of the
Simulation Adapter boundary: given (box, redshift, hubble, matter, baryon)
it either fails with a simulation error (a Python exception) or returns an
output object carrying a `brightness_temp` numeric collection.  Python
exception propagation is embedded as `Except`: a raised error aborts the
enclosing loop and propagates to the caller, so a failed sweep produces no
list at all.
-/

namespace CosmicHydrogen

/-- An IEEE-style extended value: a finite rational, an infinity, or NaN. -/
inductive EVal where
  | fin (q : ℚ)
  | pinf
  | ninf
  | nan
deriving DecidableEq, Repr, Inhabited

namespace EVal

/-- Is the value finite (neither an infinity nor NaN)? -/
def isFinite : EVal → Bool
  | fin _ => true
  | _ => false

/-- The rational carried by a finite value (0 for non-finite values). -/
def toRat : EVal → ℚ
  | fin q => q
  | _ => 0

/-- IEEE addition on extended values (exact on finite operands). -/
def add : EVal → EVal → EVal
  | nan, _ => nan
  | _, nan => nan
  | fin a, fin b => fin (a + b)
  | fin _, pinf => pinf
  | fin _, ninf => ninf
  | pinf, fin _ => pinf
  | ninf, fin _ => ninf
  | pinf, pinf => pinf
  | ninf, ninf => ninf
  | pinf, ninf => nan
  | ninf, pinf => nan

/-- IEEE subtraction on extended values (exact on finite operands). -/
def sub : EVal → EVal → EVal
  | nan, _ => nan
  | _, nan => nan
  | fin a, fin b => fin (a - b)
  | fin _, pinf => ninf
  | fin _, ninf => pinf
  | pinf, fin _ => pinf
  | ninf, fin _ => ninf
  | pinf, pinf => nan
  | ninf, ninf => nan
  | pinf, ninf => pinf
  | ninf, pinf => ninf

/-- IEEE true division on extended values: a nonzero finite value divided by
zero gives an infinity of the numerator's sign, zero divided by zero gives
NaN (signed zero is collapsed, so the zero divisor counts as positive). -/
def div : EVal → EVal → EVal
  | nan, _ => nan
  | _, nan => nan
  | fin a, fin b =>
    if b = 0 then (if a = 0 then nan else if 0 < a then pinf else ninf)
    else fin (a / b)
  | fin _, pinf => fin 0
  | fin _, ninf => fin 0
  | pinf, fin b => if 0 ≤ b then pinf else ninf
  | ninf, fin b => if 0 ≤ b then ninf else pinf
  | pinf, pinf => nan
  | pinf, ninf => nan
  | ninf, pinf => nan
  | ninf, ninf => nan

/-- IEEE multiplication on extended values: an infinity times zero is NaN. -/
def mul : EVal → EVal → EVal
  | nan, _ => nan
  | _, nan => nan
  | fin a, fin b => fin (a * b)
  | fin a, pinf => if a = 0 then nan else if 0 < a then pinf else ninf
  | fin a, ninf => if a = 0 then nan else if 0 < a then ninf else pinf
  | pinf, fin b => if b = 0 then nan else if 0 < b then pinf else ninf
  | ninf, fin b => if b = 0 then nan else if 0 < b then ninf else pinf
  | pinf, pinf => pinf
  | pinf, ninf => ninf
  | ninf, pinf => ninf
  | ninf, ninf => pinf

end EVal

/-- `np.mean`: the sum of all elements divided by the element count.  On an
empty collection this is 0/0, i.e. NaN (numpy warns and returns NaN); a
non-finite element contaminates the sum, so the mean of a collection holding
NaN or an infinity is itself non-finite — numpy never raises here. -/
def npMean (l : List EVal) : EVal :=
  (l.foldl EVal.add (EVal.fin 0)).div (EVal.fin l.length)

/-- The output object of the external simulation: the script only reads its
`brightness_temp` field, a numeric collection. -/
structure SimOutput where
  brightness_temp : List EVal
deriving DecidableEq, Repr

/-- A simulation-level failure (a Python exception raised by the adapter). -/
structure SimError where
  code : ℕ
deriving DecidableEq, Repr

/-- Modelled from the spec: the external Simulation Adapter `T_b` is absent
from the repository (the script calls it but never defines it).  Per the
spec's Simulation Adapter boundary it takes (box, redshift, hubble, matter,
baryon) and either returns a field object or fails with a simulation error. -/
def Adapter : Type := ℕ → ℚ → ℚ → ℚ → ℚ → Except SimError SimOutput

/-- The three named cosmological parameters. -/
structure Params where
  hubble : ℚ
  matter : ℚ
  baryon : ℚ
deriving DecidableEq, Repr

/-- `std_params`: the standard-model parameter dictionary. -/
def std_params : Params :=
  { hubble := 69/100, matter := 31/100, baryon := 2/100 }

/-- `z = np.linspace(30, 5, 30)`: 30 redshifts from 30 down to 5. -/
def z : List ℚ :=
  (List.range 30).map (fun i => 30 - 25 * i / 29)

/-- `hubble_variations = [0.67, 0.69, 0.71]`. -/
def hubble_variations : List ℚ := [67/100, 69/100, 71/100]

/-- `matter_variations = [0.29, 0.31, 0.33]`. -/
def matter_variations : List ℚ := [29/100, 31/100, 33/100]

/-- `baryon_variations = [0.018, 0.02, 0.022]`. -/
def baryon_variations : List ℚ := [18/1000, 20/1000, 22/1000]

/-- `calculate_mean_temperature`: calls `T_b` with `box=50` and the given
redshift and parameters, then reduces the returned field with `np.mean`.
An adapter exception propagates. -/
def calculate_mean_temperature (T_b : Adapter)
    (redshift hubble matter baryon : ℚ) : Except SimError EVal :=
  (T_b 50 redshift hubble matter baryon).map
    (fun bt => npMean bt.brightness_temp)

/-- The sweep loop pattern shared by the standard model and every axis value:
for each redshift of the grid, in grid order, append the reduced observable.
A raised exception aborts the loop, so no partial list escapes. -/
def run_sweep (T_b : Adapter) (grid : List ℚ) (p : Params) :
    Except SimError (List EVal) :=
  match grid with
  | [] => Except.ok []
  | r :: rest =>
    match calculate_mean_temperature T_b r p.hubble p.matter p.baryon with
    | Except.error e => Except.error e
    | Except.ok v =>
      match run_sweep T_b rest p with
      | Except.error e => Except.error e
      | Except.ok vs => Except.ok (v :: vs)

/-- `Tb_std`: the standard-model series, one mean per redshift of `z`. -/
def Tb_std (T_b : Adapter) : Except SimError (List EVal) :=
  run_sweep T_b z std_params

/-- `Tb_hubble`: one series per Hubble variation; each evaluation passes the
varied `h` with the standard matter and baryon values. -/
def Tb_hubble (T_b : Adapter) :
    List (ℚ × Except SimError (List EVal)) :=
  hubble_variations.map (fun h =>
    (h, run_sweep T_b z ⟨h, std_params.matter, std_params.baryon⟩))

/-- `Tb_matter`: one series per matter variation; each evaluation passes the
varied `m` with the standard hubble and baryon values. -/
def Tb_matter (T_b : Adapter) :
    List (ℚ × Except SimError (List EVal)) :=
  matter_variations.map (fun m =>
    (m, run_sweep T_b z ⟨std_params.hubble, m, std_params.baryon⟩))

/-- `Tb_baryon`: one series per baryon variation; each evaluation passes the
varied `b` with the standard hubble and matter values. -/
def Tb_baryon (T_b : Adapter) :
    List (ℚ × Except SimError (List EVal)) :=
  baryon_variations.map (fun b =>
    (b, run_sweep T_b z ⟨std_params.hubble, std_params.matter, b⟩))

/-- Numpy broadcasting of two one-dimensional arrays: equal lengths pair
elementwise; a length-1 operand is repeated across the other; any other
length mismatch is a shape error (`ValueError`), modelled as `none`. -/
def broadcast2 (a b : List EVal) : Option (List (EVal × EVal)) :=
  if a.length = b.length then some (a.zip b)
  else if a.length = 1 then some (b.map (fun y => (a.headI, y)))
  else if b.length = 1 then some (a.map (fun x => (x, b.headI)))
  else none

/-- One point of the percentage-deviation expression:
`(x - y) / y * 100` under IEEE extended-value semantics. -/
def devPoint (x y : EVal) : EVal :=
  ((x.sub y).div y).mul (EVal.fin 100)

/-- `diff = (series - baseline) / baseline * 100` on numpy arrays: broadcast
the operands, then apply the deviation expression pointwise.  `none` models
the `ValueError` numpy raises on incompatible shapes. -/
def diff (s b : List EVal) : Option (List EVal) :=
  (broadcast2 s b).map (List.map (fun p => devPoint p.1 p.2))

/-! ### Helper lemmas about the deviation computation -/

lemma map_zip_devPoint (s b : List EVal) :
    (s.zip b).map (fun p => devPoint p.1 p.2) = List.zipWith devPoint s b := by
  induction s generalizing b with
  | nil => simp
  | cons x xs ih => cases b <;> simp [ih]

lemma diff_eq_zipWith (s b : List EVal) (hlen : s.length = b.length) :
    diff s b = some (List.zipWith devPoint s b) := by
  unfold diff broadcast2
  rw [if_pos hlen]
  simp only [Option.map]
  exact congrArg some (map_zip_devPoint s b)

lemma devPoint_fin (x y : ℚ) (hy : y ≠ 0) :
    devPoint (EVal.fin x) (EVal.fin y) = EVal.fin ((x - y) / y * 100) := by
  simp [devPoint, EVal.sub, EVal.div, EVal.mul, hy]

lemma zipWith_map_fin (s b : List ℚ) (hb : ∀ x ∈ b, x ≠ 0) :
    List.zipWith devPoint (s.map EVal.fin) (b.map EVal.fin)
      = (s.zip b).map (fun p => EVal.fin ((p.1 - p.2) / p.2 * 100)) := by
  induction s generalizing b with
  | nil => simp
  | cons x xs ih =>
    cases b with
    | nil => simp
    | cons y ys =>
      have hy : y ≠ 0 := hb y (by simp)
      have hys : ∀ v ∈ ys, v ≠ 0 := fun v hv => hb v (by simp [hv])
      simp [devPoint_fin x y hy, ih ys hys]

lemma diff_fin_spec (s b : List ℚ) (hlen : s.length = b.length)
    (hb : ∀ x ∈ b, x ≠ 0) :
    diff (s.map EVal.fin) (b.map EVal.fin)
      = some ((s.zip b).map (fun p => EVal.fin ((p.1 - p.2) / p.2 * 100))) := by
  rw [diff_eq_zipWith _ _ (by simpa using hlen), zipWith_map_fin s b hb]

lemma zip_self (b : List ℚ) : b.zip b = b.map (fun x => (x, x)) := by
  induction b with
  | nil => rfl
  | cons y ys ih => simp [ih]

lemma devPoint_zero_nonfinite (x : EVal) :
    (devPoint x (EVal.fin 0)).isFinite = false := by
  cases x with
  | fin a =>
    rcases lt_trichotomy a 0 with h | h | h
    · simp [devPoint, EVal.sub, EVal.div, EVal.mul, EVal.isFinite,
        h.ne, not_lt.mpr h.le]
    · simp [devPoint, EVal.sub, EVal.div, EVal.mul, EVal.isFinite, h]
    · simp [devPoint, EVal.sub, EVal.div, EVal.mul, EVal.isFinite,
        h.ne.symm, h]
  | pinf => simp [devPoint, EVal.sub, EVal.div, EVal.mul, EVal.isFinite]
  | ninf => simp [devPoint, EVal.sub, EVal.div, EVal.mul, EVal.isFinite]
  | nan => simp [devPoint, EVal.sub, EVal.div, EVal.mul, EVal.isFinite]

lemma zipWith_devPoint_zero (s b : List EVal) (i : ℕ)
    (hb : b[i]? = some (EVal.fin 0)) (hi : i < s.length) :
    ∃ v, (List.zipWith devPoint s b)[i]? = some v ∧ v.isFinite = false := by
  induction s generalizing b i with
  | nil => simp at hi
  | cons x xs ih =>
    cases b with
    | nil => simp at hb
    | cons y ys =>
      cases i with
      | zero =>
        simp only [List.getElem?_cons_zero, Option.some_inj] at hb
        subst hb
        exact ⟨devPoint x (EVal.fin 0), by simp, devPoint_zero_nonfinite x⟩
      | succ j =>
        simp only [List.getElem?_cons_succ] at hb
        have hj : j < xs.length := by simpa using hi
        obtain ⟨v, hv, hnf⟩ := ih ys j hb hj
        exact ⟨v, by simpa using hv, hnf⟩

/-! ### Claims about the Baseline Comparator (`diff`) -/

/-- C2: for equal-length series with every baseline entry nonzero, the
deviation computation yields `(s[i] - b[i]) / b[i] * 100` at every index. -/
theorem claim_C2 (s b : List ℚ) (hlen : s.length = b.length)
    (hb : ∀ x ∈ b, x ≠ 0) :
    diff (s.map EVal.fin) (b.map EVal.fin)
      = some ((s.zip b).map (fun p => EVal.fin ((p.1 - p.2) / p.2 * 100))) :=
  diff_fin_spec s b hlen hb

/-- C2 witness: the literal scenario s = [12,12,12], b = [10,10,10] gives
the deviation series [20,20,20] (percent). -/
theorem claim_C2_witness :
    diff ([(12:ℚ), 12, 12].map EVal.fin) ([(10:ℚ), 10, 10].map EVal.fin)
      = some [EVal.fin 20, EVal.fin 20, EVal.fin 20] := by
  have h := claim_C2 [12, 12, 12] [10, 10, 10] rfl (by norm_num)
  rw [h]
  norm_num

/-- C9: the deviation of a series of nonzero values against itself is the
all-zero deviation series. -/
theorem claim_C9 (b : List ℚ) (hb : ∀ x ∈ b, x ≠ 0) :
    diff (b.map EVal.fin) (b.map EVal.fin)
      = some (List.replicate b.length (EVal.fin 0)) := by
  rw [diff_fin_spec b b rfl hb, zip_self, List.map_map]
  refine congrArg some ?_
  refine List.eq_replicate_iff.mpr ⟨by simp, ?_⟩
  intro v hv
  simp only [List.mem_map, Function.comp] at hv
  obtain ⟨x, _, rfl⟩ := hv
  simp

/-- C9 witness: deviation of [10,10,10] against itself is [0,0,0]. -/
theorem claim_C9_witness :
    diff ([(10:ℚ), 10, 10].map EVal.fin) ([(10:ℚ), 10, 10].map EVal.fin)
      = some [EVal.fin 0, EVal.fin 0, EVal.fin 0] := by
  have h := claim_C9 [10, 10, 10] (by norm_num)
  simpa [List.replicate] using h

/-- C3 counterexample: with baseline [0] and series [12] the code does not
fail with any division-by-zero error — numpy yields positive infinity and
the computation succeeds, contradicting the claim that it fails and never
produces Inf. -/
theorem claim_C3_counterexample :
    diff [EVal.fin 12] [EVal.fin 0] = some [EVal.pinf] := by
  norm_num [diff, broadcast2, devPoint, EVal.sub, EVal.div, EVal.mul]

/-- C3 amended: for equal-length series, a zero baseline entry does not
raise; the deviation series is still produced, and its entry at every index
whose baseline value is zero is non-finite (Inf or NaN). -/
theorem claim_C3_amended (s b : List EVal) (hlen : s.length = b.length) :
    ∃ res : List EVal, diff s b = some res ∧ res.length = b.length ∧
      ∀ i : ℕ, b[i]? = some (EVal.fin 0) →
        ∃ v : EVal, res[i]? = some v ∧ v.isFinite = false := by
  refine ⟨List.zipWith devPoint s b, diff_eq_zipWith s b hlen, ?_, ?_⟩
  · rw [List.length_zipWith, hlen, min_self]
  · intro i hb
    have hib : i < b.length := by
      by_contra hgt
      rw [List.getElem?_eq_none (by omega)] at hb
      simp at hb
    exact zipWith_devPoint_zero s b i hb (hlen ▸ hib)

/-- C3 amended witness: series [5] against baseline [0]. -/
theorem claim_C3_witness :
    ∃ res : List EVal, diff [EVal.fin 5] [EVal.fin 0] = some res ∧
      res.length = ([EVal.fin 0] : List EVal).length ∧
      ∀ i : ℕ, ([EVal.fin 0] : List EVal)[i]? = some (EVal.fin 0) →
        ∃ v : EVal, res[i]? = some v ∧ v.isFinite = false :=
  claim_C3_amended [EVal.fin 5] [EVal.fin 0] rfl

/-- C4 counterexample: series of length 2 against baseline of length 1 —
lengths differ, yet the computation succeeds (numpy broadcasts the length-1
operand) instead of failing with an alignment error. -/
theorem claim_C4_counterexample :
    ([EVal.fin 1, EVal.fin 2] : List EVal).length
        ≠ ([EVal.fin 5] : List EVal).length ∧
    diff [EVal.fin 1, EVal.fin 2] [EVal.fin 5]
      = some [EVal.fin (-80), EVal.fin (-60)] := by
  constructor
  · norm_num
  · norm_num [diff, broadcast2, devPoint, EVal.sub, EVal.div, EVal.mul,
      List.headI]

/-- C4 amended: the deviation computation fails (numpy shape `ValueError`)
exactly when the lengths differ and neither operand has length 1; a
length-1 operand is broadcast instead of failing. -/
theorem claim_C4_amended (s b : List EVal) :
    diff s b = none ↔
      s.length ≠ b.length ∧ s.length ≠ 1 ∧ b.length ≠ 1 := by
  unfold diff broadcast2
  split_ifs with h1 h2 h3
  · simp [Option.map, h1]
  · simp [Option.map, h1, h2]
  · simp [Option.map, h1, h2, h3]
  · simp [Option.map, h1, h2, h3]

/-! ### Claims about the Sweep Engine (`run_sweep`) -/

/-- A stub adapter for witnesses: a fixed one-cell field of value 10 at
every input, so every reduced observable is 10. -/
def stubAdapter : Adapter := fun _ _ _ _ _ => Except.ok ⟨[EVal.fin 10]⟩

/-- C1: a successful sweep produces exactly one observable per grid entry
and aligns index-for-index with the grid: the element at index i is the
reduced observable of the i-th redshift. -/
theorem claim_C1 (T_b : Adapter) (grid : List ℚ) (p : Params)
    (s : List EVal) (hok : run_sweep T_b grid p = Except.ok s) :
    s.length = grid.length ∧
    ∀ i : ℕ, ∀ r : ℚ, grid[i]? = some r →
      (calculate_mean_temperature T_b r p.hubble p.matter p.baryon).toOption
        = s[i]? := by
  induction grid generalizing s with
  | nil =>
    simp only [run_sweep] at hok
    injection hok with hok
    subst hok
    simp
  | cons rhd rest ih =>
    simp only [run_sweep] at hok
    cases hc : calculate_mean_temperature T_b rhd p.hubble p.matter p.baryon with
    | error e => rw [hc] at hok; simp at hok
    | ok v =>
      rw [hc] at hok
      cases hr : run_sweep T_b rest p with
      | error e => rw [hr] at hok; simp at hok
      | ok vs =>
        rw [hr] at hok
        simp only [] at hok
        injection hok with hok
        subst hok
        obtain ⟨ihlen, ihpt⟩ := ih vs hr
        refine ⟨by simp [ihlen], ?_⟩
        intro i r hi
        cases i with
        | zero =>
          simp only [List.getElem?_cons_zero, Option.some_inj] at hi
          subst hi
          simp [hc, Except.toOption]
        | succ j =>
          simp only [List.getElem?_cons_succ] at hi ⊢
          exact ihpt j r hi

/-- C1 witness: the spec's literal scenario — grid [30, 20, 10] with a stub
adapter whose field mean is 10 gives the series [10, 10, 10], length 3 and
pointwise aligned. -/
theorem claim_C1_witness :
    ([EVal.fin 10, EVal.fin 10, EVal.fin 10] : List EVal).length
      = ([(30:ℚ), 20, 10] : List ℚ).length ∧
    ∀ i : ℕ, ∀ r : ℚ, ([(30:ℚ), 20, 10] : List ℚ)[i]? = some r →
      (calculate_mean_temperature stubAdapter r std_params.hubble
          std_params.matter std_params.baryon).toOption
        = ([EVal.fin 10, EVal.fin 10, EVal.fin 10] : List EVal)[i]? :=
  claim_C1 stubAdapter [30, 20, 10] std_params
    [EVal.fin 10, EVal.fin 10, EVal.fin 10]
    (by norm_num [run_sweep, calculate_mean_temperature, stubAdapter,
      npMean, EVal.add, EVal.div, Except.map])

/-- The failure scenario's adapter: raises a simulation error whenever
baryon exceeds matter, otherwise returns a one-cell field. -/
def failingAdapter : Adapter := fun _ _ _ m b =>
  if m < b then Except.error ⟨1⟩ else Except.ok ⟨[EVal.fin 10]⟩

/-- C8: if any single (parameter, redshift) evaluation fails, the sweep for
those parameters fails as a whole — the error propagates and no partial
series is returned. -/
theorem claim_C8 (T_b : Adapter) (grid : List ℚ) (p : Params)
    (hfail : ∃ r ∈ grid, ∃ e : SimError,
      calculate_mean_temperature T_b r p.hubble p.matter p.baryon
        = Except.error e) :
    ∃ e' : SimError, run_sweep T_b grid p = Except.error e' := by
  induction grid with
  | nil => obtain ⟨r, hr, _⟩ := hfail; simp at hr
  | cons rhd rest ih =>
    obtain ⟨r, hr, e, he⟩ := hfail
    rcases List.mem_cons.mp hr with rfl | hmem
    · exact ⟨e, by simp only [run_sweep, he]⟩
    · cases hc : calculate_mean_temperature T_b rhd p.hubble p.matter p.baryon with
      | error e0 => exact ⟨e0, by simp only [run_sweep, hc]⟩
      | ok v =>
        obtain ⟨e', he'⟩ := ih ⟨r, hmem, e, he⟩
        exact ⟨e', by simp only [run_sweep, hc, he']⟩

/-- C8 witness: the spec's failure scenario — baryon 0.5 exceeds matter 0.3,
the adapter raises, and the whole sweep fails with that error. -/
theorem claim_C8_witness :
    ∃ e' : SimError,
      run_sweep failingAdapter [10] ⟨7/10, 3/10, 5/10⟩ = Except.error e' :=
  claim_C8 failingAdapter [10] ⟨7/10, 3/10, 5/10⟩
    ⟨10, by simp, ⟨1⟩,
      by norm_num [calculate_mean_temperature, failingAdapter, Except.map]⟩

/-! ### Claims about the axis sweeps -/

/-- C6: the hubble axis-sweep dictionary has exactly the three variation
values as keys (pairwise distinct, in axis order), computes a full series
for the baseline's own value 0.69 unconditionally, and the series stored at
0.69 equals the independently computed baseline series `Tb_std`. -/
theorem claim_C6 (T_b : Adapter) :
    (Tb_hubble T_b).map Prod.fst = hubble_variations ∧
    hubble_variations.Nodup ∧
    (Tb_hubble T_b).length = 3 ∧
    (Tb_hubble T_b).lookup std_params.hubble = some (Tb_std T_b) := by
  have h1 : ((69:ℚ)/100 == 67/100) = false := by
    rw [beq_eq_false_iff_ne]
    norm_num
  refine ⟨?_, ?_, ?_, ?_⟩
  · rfl
  · norm_num [hubble_variations]
  · simp [Tb_hubble, hubble_variations]
  · simp only [Tb_hubble, hubble_variations, List.map, List.lookup,
      std_params, h1, beq_self_eq_true]
    norm_num [Tb_std, std_params]

/-- The three parameter axes of the study. -/
inductive Axis where
  | hubble
  | matter
  | baryon
deriving DecidableEq, Repr

/-- The variation list attached to each axis. -/
def axisValues : Axis → List ℚ
  | Axis.hubble => hubble_variations
  | Axis.matter => matter_variations
  | Axis.baryon => baryon_variations

/-- Modelled from the spec: build a ParameterSet that copies the baseline
and overrides only the axis's own field with the given value. -/
def overrideAxis : Axis → ℚ → Params → Params
  | Axis.hubble, v, p => { p with hubble := v }
  | Axis.matter, v, p => { p with matter := v }
  | Axis.baryon, v, p => { p with baryon := v }

/-- Read the named field an axis varies. -/
def Params.getField : Axis → Params → ℚ
  | Axis.hubble, p => p.hubble
  | Axis.matter, p => p.matter
  | Axis.baryon, p => p.baryon

/-- The per-axis sweep dictionary computed by the script. -/
def Tb_axis (T_b : Adapter) : Axis → List (ℚ × Except SimError (List EVal))
  | Axis.hubble => Tb_hubble T_b
  | Axis.matter => Tb_matter T_b
  | Axis.baryon => Tb_baryon T_b

/-- C7: every axis sweep evaluates `run_sweep` at the baseline parameters
with only the axis's own field replaced by the axis value: that field reads
back as the axis value, and every other field keeps its baseline value. -/
theorem claim_C7 (T_b : Adapter) (a : Axis) :
    (Tb_axis T_b a
      = (axisValues a).map
          (fun v => (v, run_sweep T_b z (overrideAxis a v std_params)))) ∧
    ∀ v : ℚ,
      Params.getField a (overrideAxis a v std_params) = v ∧
      ∀ a' : Axis, a' ≠ a →
        Params.getField a' (overrideAxis a v std_params)
          = Params.getField a' std_params := by
  cases a <;>
    exact ⟨rfl, fun v =>
      ⟨rfl, fun a' ha => by cases a' <;> first | rfl | exact absurd rfl ha⟩⟩

/-- C7 witness: overriding the hubble axis with 0.67 leaves the matter
field at its baseline value. -/
theorem claim_C7_witness :
    Params.getField Axis.matter (overrideAxis Axis.hubble (67/100) std_params)
      = Params.getField Axis.matter std_params :=
  ((claim_C7 stubAdapter Axis.hubble).2 (67/100)).2 Axis.matter (by decide)

/-! ### The box-size invariant -/

lemma calc_congr (T T' : Adapter)
    (hagree : ∀ r h m b : ℚ, T 50 r h m b = T' 50 r h m b)
    (r h m b : ℚ) :
    calculate_mean_temperature T r h m b
      = calculate_mean_temperature T' r h m b := by
  unfold calculate_mean_temperature
  rw [hagree]

lemma run_sweep_congr (T T' : Adapter)
    (hagree : ∀ r h m b : ℚ, T 50 r h m b = T' 50 r h m b)
    (grid : List ℚ) (p : Params) :
    run_sweep T grid p = run_sweep T' grid p := by
  induction grid with
  | nil => rfl
  | cons rhd rest ih =>
    simp only [run_sweep, calc_congr T T' hagree, ih]

/-- C10: every simulation evaluation of the study calls the adapter with
box size 50: two adapters that agree at box 50 (and may differ everywhere
else) produce the same baseline series and the same three axis sweeps. -/
theorem claim_C10 (T T' : Adapter)
    (hagree : ∀ r h m b : ℚ, T 50 r h m b = T' 50 r h m b) :
    Tb_std T = Tb_std T' ∧ Tb_hubble T = Tb_hubble T' ∧
    Tb_matter T = Tb_matter T' ∧ Tb_baryon T = Tb_baryon T' := by
  refine ⟨?_, ?_, ?_, ?_⟩ <;>
    simp only [Tb_std, Tb_hubble, Tb_matter, Tb_baryon,
      run_sweep_congr T T' hagree]

/-- A probe adapter that answers only at box 50. -/
def boxProbeA : Adapter := fun box _ _ _ _ =>
  if box = 50 then Except.ok ⟨[EVal.fin 10]⟩ else Except.ok ⟨[]⟩

/-- A second probe adapter agreeing with `boxProbeA` at box 50 only. -/
def boxProbeB : Adapter := fun box _ _ _ _ =>
  if box = 50 then Except.ok ⟨[EVal.fin 10]⟩ else Except.error ⟨0⟩

/-- C10 witness: the two probes differ away from box 50 yet give identical
study outputs. -/
theorem claim_C10_witness :
    Tb_std boxProbeA = Tb_std boxProbeB ∧
    Tb_hubble boxProbeA = Tb_hubble boxProbeB ∧
    Tb_matter boxProbeA = Tb_matter boxProbeB ∧
    Tb_baryon boxProbeA = Tb_baryon boxProbeB :=
  claim_C10 boxProbeA boxProbeB (fun _ _ _ _ => rfl)

/-! ### Claims about the Scalar Reducer (`np.mean`) -/

lemma add_nonfinite_left (x y : EVal) (hx : x.isFinite = false) :
    (x.add y).isFinite = false := by
  cases x <;> cases y <;> simp_all [EVal.add, EVal.isFinite]

lemma add_nonfinite_right (x y : EVal) (hy : y.isFinite = false) :
    (x.add y).isFinite = false := by
  cases x <;> cases y <;> simp_all [EVal.add, EVal.isFinite]

lemma foldl_add_nonfinite_acc (l : List EVal) (acc : EVal)
    (hacc : acc.isFinite = false) :
    (l.foldl EVal.add acc).isFinite = false := by
  induction l generalizing acc with
  | nil => exact hacc
  | cons x xs ih => exact ih (acc.add x) (add_nonfinite_left acc x hacc)

lemma foldl_add_nonfinite_mem (l : List EVal) (acc : EVal)
    (hl : ∃ x ∈ l, x.isFinite = false) :
    (l.foldl EVal.add acc).isFinite = false := by
  induction l generalizing acc with
  | nil => obtain ⟨x, hx, _⟩ := hl; simp at hx
  | cons y ys ih =>
    obtain ⟨x, hx, hnf⟩ := hl
    rcases List.mem_cons.mp hx with rfl | hmem
    · exact foldl_add_nonfinite_acc ys (acc.add x)
        (add_nonfinite_right acc x hnf)
    · exact ih (acc.add y) ⟨x, hmem, hnf⟩

lemma div_fin_nonfinite (x : EVal) (n : ℚ) (hx : x.isFinite = false) :
    (x.div (EVal.fin n)).isFinite = false := by
  cases x with
  | fin q => simp [EVal.isFinite] at hx
  | pinf =>
    by_cases hn : 0 ≤ n <;> simp [EVal.div, EVal.isFinite, hn]
  | ninf =>
    by_cases hn : 0 ≤ n <;> simp [EVal.div, EVal.isFinite, hn]
  | nan => simp [EVal.div, EVal.isFinite]

lemma foldl_add_fin (l : List EVal) (hfin : ∀ x ∈ l, x.isFinite = true)
    (q : ℚ) :
    l.foldl EVal.add (EVal.fin q)
      = EVal.fin (q + (l.map EVal.toRat).sum) := by
  induction l generalizing q with
  | nil => simp
  | cons x xs ih =>
    cases x with
    | fin a =>
      have hxs : ∀ y ∈ xs, y.isFinite = true := fun y hy => hfin y (by simp [hy])
      simp only [List.foldl_cons, EVal.add, ih hxs, List.map_cons,
        List.sum_cons, EVal.toRat]
      rw [add_assoc]
    | pinf => have := hfin EVal.pinf (by simp); simp [EVal.isFinite] at this
    | ninf => have := hfin EVal.ninf (by simp); simp [EVal.isFinite] at this
    | nan => have := hfin EVal.nan (by simp); simp [EVal.isFinite] at this

lemma npMean_fin (l : List EVal) (hne : l ≠ [])
    (hfin : ∀ x ∈ l, x.isFinite = true) :
    npMean l = EVal.fin ((l.map EVal.toRat).sum / l.length) := by
  have hpos : 0 < l.length := List.length_pos.mpr hne
  have hlen : ((l.length : ℚ)) ≠ 0 := by
    exact_mod_cast Nat.pos_iff_ne_zero.mp hpos
  rw [npMean, foldl_add_fin l hfin 0, zero_add]
  simp [EVal.div, hlen]

lemma npMean_nonfinite (l : List EVal)
    (h : l = [] ∨ ∃ x ∈ l, x.isFinite = false) :
    (npMean l).isFinite = false := by
  rcases h with rfl | hmem
  · simp [npMean, EVal.div, EVal.isFinite]
  · rw [npMean]
    exact div_fin_nonfinite _ _ (foldl_add_nonfinite_mem l _ hmem)

/-- C5 amended: when the adapter succeeds, `calculate_mean_temperature`
returns `np.mean` of the field's values — the exact arithmetic mean for a
non-empty all-finite field; for an empty field or one holding a non-finite
entry the result is a non-finite value (NaN or Inf), never an error: the
code has no `ReductionError` and numpy never raises here. -/
theorem claim_C5_amended (T_b : Adapter) (r h m b : ℚ) (f : SimOutput)
    (hok : T_b 50 r h m b = Except.ok f) :
    calculate_mean_temperature T_b r h m b
        = Except.ok (npMean f.brightness_temp) ∧
    ((f.brightness_temp ≠ [] ∧
        ∀ x ∈ f.brightness_temp, x.isFinite = true) →
      npMean f.brightness_temp
        = EVal.fin ((f.brightness_temp.map EVal.toRat).sum
            / f.brightness_temp.length)) ∧
    ((f.brightness_temp = [] ∨
        ∃ x ∈ f.brightness_temp, x.isFinite = false) →
      (npMean f.brightness_temp).isFinite = false) := by
  refine ⟨?_, fun hc => npMean_fin _ hc.1 hc.2, npMean_nonfinite _⟩
  rw [calculate_mean_temperature, hok]
  rfl

/-- An adapter returning an empty field, to exercise the empty-mean case. -/
def emptyFieldAdapter : Adapter := fun _ _ _ _ _ => Except.ok ⟨[]⟩

/-- C5 counterexample: an empty field makes the reducer return NaN
successfully — it does not fail with any reduction error. -/
theorem claim_C5_counterexample :
    calculate_mean_temperature emptyFieldAdapter 10 (69/100) (31/100) (2/100)
      = Except.ok EVal.nan := by
  norm_num [calculate_mean_temperature, emptyFieldAdapter, npMean,
    EVal.div, Except.map]

/-- C5 witness: the amended statement at the stub adapter, whose one-cell
field [10] is non-empty and all-finite. -/
theorem claim_C5_witness :
    calculate_mean_temperature stubAdapter 10 (69/100) (31/100) (2/100)
        = Except.ok (npMean (SimOutput.mk [EVal.fin 10]).brightness_temp) ∧
    (((SimOutput.mk [EVal.fin 10]).brightness_temp ≠ [] ∧
        ∀ x ∈ (SimOutput.mk [EVal.fin 10]).brightness_temp,
          x.isFinite = true) →
      npMean (SimOutput.mk [EVal.fin 10]).brightness_temp
        = EVal.fin
            (((SimOutput.mk [EVal.fin 10]).brightness_temp.map EVal.toRat).sum
              / (SimOutput.mk [EVal.fin 10]).brightness_temp.length)) ∧
    (((SimOutput.mk [EVal.fin 10]).brightness_temp = [] ∨
        ∃ x ∈ (SimOutput.mk [EVal.fin 10]).brightness_temp,
          x.isFinite = false) →
      (npMean (SimOutput.mk [EVal.fin 10]).brightness_temp).isFinite
        = false) :=
  claim_C5_amended stubAdapter 10 (69/100) (31/100) (2/100)
    ⟨[EVal.fin 10]⟩ rfl

end CosmicHydrogen
